import Mathlib

/-!
Verification of the dstack-tutorial attestation / key-chain verification
scripts against their specification.

Shallow embedding notes:
* `Json` models the duck-typed configuration objects (`app_compose`) that
  `compute_compose_hash` serializes.  JSON numbers are modelled as integers
  (the configuration objects in the repository contain only integers,
  strings, booleans, sequences and mappings).
* Byte strings are modelled as `List Nat` (each entry < 256 by intent).
* `hashlib.sha256`, `eth_utils.keccak` and the secp256k1 recovery routines of
  `eth_keys` / `eth_account` are external libraries, not code of this
  repository; they are modelled as abstract function parameters.  The
  argument-validation the libraries perform on signature bytes (length,
  recovery id) is modelled concretely because the scripts' control flow
  depends on it.
-/

/-- Model of the dynamic JSON values handled by `json.dumps` in
`compute_compose_hash` (src/01-attestation-and-reference-values/verify.py).
Objects keep their key insertion order, as Python dicts do. -/
inductive Json where
  | null : Json
  | bool (b : Bool) : Json
  | num (n : Int) : Json
  | str (s : String) : Json
  | arr (xs : List Json) : Json
  | obj (kvs : List (String × Json)) : Json

/-- Lowercase hex digit, as produced by Python's `format(c, '04x')`. -/
def hexDigit (n : Nat) : Char :=
  if n < 10 then Char.ofNat (48 + n) else Char.ofNat (87 + n)

/-- `\uXXXX` escape used by `json.dumps` (ensure_ascii=True default). -/
def uEscape (n : Nat) : String :=
  String.mk ['\\', 'u', hexDigit (n / 4096 % 16), hexDigit (n / 256 % 16),
    hexDigit (n / 16 % 16), hexDigit (n % 16)]

/-- Escape of one character, following CPython's
`json.encoder.py_encode_basestring_ascii`: `"` and `\` get backslash
escapes, control characters get their short escapes or `\u00XX`, printable
ASCII is emitted verbatim, and all non-ASCII is `\u`-escaped (with a
surrogate pair above U+FFFF). -/
def escapeChar (c : Char) : String :=
  if c = '"' then "\\\""
  else if c = '\\' then "\\\\"
  else if c = '\x08' then "\\b"
  else if c = '\x09' then "\\t"
  else if c = '\x0a' then "\\n"
  else if c = '\x0c' then "\\f"
  else if c = '\x0d' then "\\r"
  else if c.toNat < 32 then uEscape c.toNat
  else if c.toNat < 127 then String.singleton c
  else if c.toNat < 65536 then uEscape c.toNat
  else
    uEscape (55296 + (c.toNat - 65536) / 1024) ++
      uEscape (56320 + (c.toNat - 65536) % 1024)

/-- JSON string literal: quote, escaped characters, quote. -/
def escapeString (s : String) : String :=
  "\"" ++ String.join (s.data.map escapeChar) ++ "\""

/-- Comma-joined rendering, the `separators=(',', ':')` item separator. -/
def commaJoin : List String → String
  | [] => ""
  | [x] => x
  | x :: xs => x ++ "," ++ commaJoin xs

/-- Code-point lexicographic comparison of character lists: Python's `str`
comparison, which `sorted` applies to the dict keys. -/
def lexLe : List Char → List Char → Bool
  | [], _ => true
  | _ :: _, [] => false
  | c :: cs, d :: ds =>
      if c.toNat < d.toNat then true
      else if d.toNat < c.toNat then false
      else lexLe cs ds

theorem lexLe_total : ∀ a b : List Char, lexLe a b = true ∨ lexLe b a = true
  | [], _ => .inl rfl
  | _ :: _, [] => .inr rfl
  | c :: cs, d :: ds => by
    simp only [lexLe]
    rcases Nat.lt_trichotomy c.toNat d.toNat with h | h | h
    · simp [h]
    · simpa [h, Nat.lt_irrefl] using lexLe_total cs ds
    · simp [h, Nat.lt_asymm h]

theorem lexLe_trans :
    ∀ a b c : List Char, lexLe a b = true → lexLe b c = true → lexLe a c = true
  | [], _, _, _, _ => rfl
  | _ :: _, [], _, h, _ => by simp [lexLe] at h
  | _ :: _, _ :: _, [], _, h' => by simp [lexLe] at h'
  | a :: as, b :: bs, c :: cs, h, h' => by
    simp only [lexLe] at h h' ⊢
    rcases Nat.lt_trichotomy a.toNat b.toNat with hab | hab | hab
    · rcases Nat.lt_trichotomy b.toNat c.toNat with hbc | hbc | hbc
      · simp [Nat.lt_trans hab hbc]
      · simp [hbc ▸ hab]
      · simp [Nat.lt_asymm hbc, hbc] at h'
    · rcases Nat.lt_trichotomy b.toNat c.toNat with hbc | hbc | hbc
      · simp [hab ▸ hbc]
      · have hac : a.toNat = c.toNat := hab.trans hbc
        simp only [hab, Nat.lt_irrefl, if_false] at h
        simp only [hbc, Nat.lt_irrefl, if_false] at h'
        simp only [hac, Nat.lt_irrefl, if_false]
        exact lexLe_trans as bs cs h h'
      · simp [Nat.lt_asymm hbc, hbc] at h'
    · simp [Nat.lt_asymm hab, hab] at h

theorem lexLe_antisymm :
    ∀ a b : List Char, lexLe a b = true → lexLe b a = true → a = b
  | [], [], _, _ => rfl
  | [], _ :: _, _, h' => by simp [lexLe] at h'
  | _ :: _, [], h, _ => by simp [lexLe] at h
  | a :: as, b :: bs, h, h' => by
    simp only [lexLe] at h h'
    rcases Nat.lt_trichotomy a.toNat b.toNat with hab | hab | hab
    · simp [Nat.lt_asymm hab, hab] at h'
    · simp only [hab, Nat.lt_irrefl, if_false] at h
      simp only [hab, Nat.lt_irrefl, if_false] at h'
      have hc : a = b := by rw [← Char.ofNat_toNat a, hab, Char.ofNat_toNat]
      rw [hc, lexLe_antisymm as bs h h']
    · simp [Nat.lt_asymm hab, hab] at h

/-- Key order used by `sort_keys=True`: compare pairs by their key with the
code-point lexicographic order on strings (Python `str` comparison; dict
keys are unique, so `sorted(d.items())` never reaches the value). -/
def keyLE (p q : String × String) : Prop := lexLe p.1.data q.1.data = true

instance : DecidableRel keyLE := fun p q =>
  inferInstanceAs (Decidable (lexLe p.1.data q.1.data = true))

instance : IsTotal (String × String) keyLE := ⟨fun p q => lexLe_total p.1.data q.1.data⟩

instance : IsTrans (String × String) keyLE :=
  ⟨fun _ _ _ h h' => lexLe_trans _ _ _ h h'⟩

/-- Sorting of the rendered key/value pairs by key.  Python's `sorted` is a
stable sort comparing by key; on the unique-key lists produced by dicts any
stable sort by key agrees with it. -/
def sortPairs (l : List (String × String)) : List (String × String) :=
  List.insertionSort keyLE l

/-- Rendering of one sorted key/value pair: `"key":value`. -/
def renderPair (p : String × String) : String := escapeString p.1 ++ ":" ++ p.2

mutual

/-- Model of `json.dumps(obj, separators=(',', ':'), sort_keys=True)` from
`compute_compose_hash` (verify.py line 49).  For objects, `json.dumps` sorts
the items by key and then serializes each value; here each value is
serialized first and the (key, rendered value) pairs are then sorted by key
— the comparison only reads keys and the sort is stable, so the output is
identical. -/
def json_dumps_canonical : Json → String
  | .null => "null"
  | .bool true => "true"
  | .bool false => "false"
  | .num n => toString n
  | .str s => escapeString s
  | .arr xs => "[" ++ commaJoin (canonList xs) ++ "]"
  | .obj kvs =>
      "\x7b" ++ commaJoin ((sortPairs (canonKvs kvs)).map renderPair) ++ "\x7d"

/-- Serialization of every element of an array, in input order. -/
def canonList : List Json → List String
  | [] => []
  | x :: xs => json_dumps_canonical x :: canonList xs

/-- Serialization of every value of an object, keeping keys and order. -/
def canonKvs : List (String × Json) → List (String × String)
  | [] => []
  | (k, v) :: rest => (k, json_dumps_canonical v) :: canonKvs rest

end

/-- Keys of an object are pairwise distinct (always true of a Python dict). -/
def keysNodup : List (String × Json) → Bool
  | [] => true
  | (k, _) :: rest => !(rest.any fun p => p.1 == k) && keysNodup rest

/-- First value stored under key `k`, Python `dict` lookup. -/
def lookupKv (k : String) : List (String × Json) → Option Json
  | [] => none
  | (k', v) :: rest => if k' == k then some v else lookupKv k rest

mutual

/-- Structural equality of two JSON values: equal leaves, arrays equal
pointwise, objects have the same keys (in any order) bound to structurally
equal values.  This is equality of the parsed Python values, independent of
dict insertion order. -/
def structEq : Json → Json → Bool
  | .null, .null => true
  | .bool a, .bool b => a == b
  | .num a, .num b => a == b
  | .str a, .str b => a == b
  | .arr xs, .arr ys => structEqList xs ys
  | .obj xs, .obj ys => xs.length == ys.length && keysNodup xs && structEqKvs xs ys
  | _, _ => false

/-- Pointwise structural equality of two arrays. -/
def structEqList : List Json → List Json → Bool
  | [], [] => true
  | x :: xs, y :: ys => structEq x y && structEqList xs ys
  | _, _ => false

/-- Every binding of the first object is matched in the second. -/
def structEqKvs : List (String × Json) → List (String × Json) → Bool
  | [], _ => true
  | (k, v) :: rest, ys =>
      (match lookupKv k ys with
        | some w => structEq v w
        | none => false) && structEqKvs rest ys

end

/-- UTF-8 encoding of one code point. -/
def utf8Char (c : Char) : List Nat :=
  let n := c.toNat
  if n < 128 then [n]
  else if n < 2048 then [192 + n / 64, 128 + n % 64]
  else if n < 65536 then [224 + n / 4096, 128 + n / 64 % 64, 128 + n % 64]
  else [240 + n / 262144, 128 + n / 4096 % 64, 128 + n / 64 % 64, 128 + n % 64]

/-- UTF-8 encoding of a string, Python `str.encode()`. -/
def strBytes (s : String) : List Nat := (s.data.map utf8Char).flatten

/-- `compute_compose_hash` (verify.py lines 47-50), with `hashlib.sha256`
(external library) abstracted as the hex-digest function `sha256hex`. -/
def compute_compose_hash (sha256hex : List Nat → String) (compose_obj : Json) :
    String :=
  sha256hex (strBytes (json_dumps_canonical compose_obj))

/-! Order-independence of the canonicalizer. -/

/-- Strict key order: at most one pair per key survives in a dict, so the
sorted rendering is pairwise strictly increasing on keys. -/
def keyLT (p q : String × String) : Prop := keyLE p q ∧ p.1 ≠ q.1

instance : IsAntisymm (String × String) keyLT :=
  ⟨fun _ _ h h' => absurd (String.ext (lexLe_antisymm _ _ h.1 h'.1)) h.2⟩

theorem pairwise_keyLT_of_sorted_nodup {l : List (String × String)}
    (hs : List.Sorted keyLE l) (nd : (l.map Prod.fst).Nodup) :
    l.Pairwise keyLT := by
  have hne : l.Pairwise (fun p q : String × String => p.1 ≠ q.1) :=
    (List.pairwise_map.mp nd)
  exact hs.and hne

theorem sortPairs_perm (l : List (String × String)) : List.Perm (sortPairs l) l :=
  List.perm_insertionSort keyLE l

theorem sortPairs_sorted (l : List (String × String)) :
    List.Sorted keyLE (sortPairs l) :=
  List.sorted_insertionSort keyLE l

/-- Two permuted pair lists with duplicate-free keys sort identically. -/
theorem sortPairs_eq_of_perm {l₁ l₂ : List (String × String)} (hp : List.Perm l₁ l₂)
    (nd : (l₁.map Prod.fst).Nodup) : sortPairs l₁ = sortPairs l₂ := by
  have hp₁ := sortPairs_perm l₁
  have hp₂ := sortPairs_perm l₂
  have hperm : List.Perm (sortPairs l₁) (sortPairs l₂) :=
    hp₁.trans (hp.trans hp₂.symm)
  have nd₁ : ((sortPairs l₁).map Prod.fst).Nodup :=
    ((hp₁.map Prod.fst).nodup_iff).mpr nd
  have nd₂ : ((sortPairs l₂).map Prod.fst).Nodup :=
    ((hperm.map Prod.fst).nodup_iff).mp nd₁
  exact List.eq_of_perm_of_sorted (r := keyLT) hperm
    (pairwise_keyLT_of_sorted_nodup (sortPairs_sorted l₁) nd₁)
    (pairwise_keyLT_of_sorted_nodup (sortPairs_sorted l₂) nd₂)

theorem canonKvs_fst (xs : List (String × Json)) :
    (canonKvs xs).map Prod.fst = xs.map Prod.fst := by
  induction xs with
  | nil => rfl
  | cons p rest ih => cases p; simp [canonKvs, ih]

theorem canonKvs_append (l₁ l₂ : List (String × Json)) :
    canonKvs (l₁ ++ l₂) = canonKvs l₁ ++ canonKvs l₂ := by
  induction l₁ with
  | nil => rfl
  | cons p rest ih => cases p; simp [canonKvs, ih]

theorem keysNodup_nodup {xs : List (String × Json)} (h : keysNodup xs = true) :
    (xs.map Prod.fst).Nodup := by
  induction xs with
  | nil => simp
  | cons p rest ih =>
    cases p with
    | mk k v =>
      simp only [keysNodup, Bool.and_eq_true, Bool.not_eq_true',
        List.any_eq_false] at h
      simp only [List.map_cons, List.nodup_cons, List.mem_map]
      refine ⟨fun ⟨q, hq, hq1⟩ => ?_, ih h.2⟩
      have := h.1 q hq
      simp [hq1] at this

theorem lookupKv_split {k : String} {ys : List (String × Json)} {w : Json}
    (h : lookupKv k ys = some w) :
    ∃ ys₁ ys₂, ys = ys₁ ++ (k, w) :: ys₂ ∧ ∀ p ∈ ys₁, p.1 ≠ k := by
  induction ys with
  | nil => exact absurd h (by simp [lookupKv])
  | cons p rest ih =>
    cases p with
    | mk k' v =>
      rw [lookupKv] at h
      split at h
      · rename_i hk
        refine ⟨[], rest, ?_, by simp⟩
        have hkk : k' = k := by simpa using hk
        have hvw : v = w := by simpa using h
        rw [hkk, hvw]; rfl
      · rename_i hk
        obtain ⟨ys₁, ys₂, heq, hne⟩ := ih h
        refine ⟨(k', v) :: ys₁, ys₂, by rw [heq]; rfl, ?_⟩
        intro p hp
        rcases List.mem_cons.mp hp with hp | hp
        · rw [hp]; simpa using hk
        · exact hne p hp

theorem lookupKv_append_cons_ne {k' k : String} (hne : k' ≠ k) (w : Json)
    (ys₁ ys₂ : List (String × Json)) :
    lookupKv k' (ys₁ ++ (k, w) :: ys₂) = lookupKv k' (ys₁ ++ ys₂) := by
  induction ys₁ with
  | nil =>
    simp only [List.nil_append, lookupKv]
    rw [if_neg (by simpa using fun h : k = k' => hne h.symm)]
  | cons p rest ih =>
    cases p
    simp only [List.cons_append, lookupKv, List.append_eq]
    rw [ih]

theorem structEqKvs_congr {rest ys ys' : List (String × Json)}
    (h : structEqKvs rest ys = true)
    (hl : ∀ p ∈ rest, lookupKv p.1 ys = lookupKv p.1 ys') :
    structEqKvs rest ys' = true := by
  induction rest with
  | nil => rfl
  | cons p rest ih =>
    cases p with
    | mk k v =>
      rw [structEqKvs, Bool.and_eq_true] at h ⊢
      refine ⟨?_, ih h.2 fun q hq => hl q (List.mem_cons_of_mem _ hq)⟩
      have hk := hl (k, v) (List.mem_cons_self _ _)
      simp only at hk
      rw [← hk]
      exact h.1

/-- The rendered entry lists of two structurally equal objects are
permutations of each other (given that the values canonicalize equally). -/
theorem canonKvs_perm :
    ∀ (xs ys : List (String × Json)), keysNodup xs = true →
    xs.length = ys.length → structEqKvs xs ys = true →
    (∀ k v w, (k, v) ∈ xs → structEq v w = true →
      json_dumps_canonical v = json_dumps_canonical w) →
    List.Perm (canonKvs xs) (canonKvs ys) := by
  intro xs
  induction xs with
  | nil =>
    intro ys _ hlen _ _
    cases ys with
    | nil => exact List.Perm.refl _
    | cons p rest => simp at hlen
  | cons p rest ih =>
    intro ys hnd hlen hkv hIH
    cases p with
    | mk k v =>
      rw [structEqKvs, Bool.and_eq_true] at hkv
      obtain ⟨hhead, hrest⟩ := hkv
      cases hw : lookupKv k ys with
      | none => rw [hw] at hhead; simp at hhead
      | some w =>
        rw [hw] at hhead
        obtain ⟨ys₁, ys₂, heq, hne₁⟩ := lookupKv_split hw
        simp only [keysNodup, Bool.and_eq_true, Bool.not_eq_true',
          List.any_eq_false] at hnd
        have hrestk : ∀ q ∈ rest, q.1 ≠ k := by
          intro q hq
          have := hnd.1 q hq
          simpa using this
        have hrest' : structEqKvs rest (ys₁ ++ ys₂) = true := by
          refine structEqKvs_congr hrest ?_
          intro q hq
          rw [heq]
          exact lookupKv_append_cons_ne (hrestk q hq) w ys₁ ys₂
        have hlen' : rest.length = (ys₁ ++ ys₂).length := by
          rw [heq] at hlen
          simp only [List.length_cons, List.length_append] at hlen ⊢
          omega
        have hperm := ih (ys₁ ++ ys₂) hnd.2 hlen' hrest'
          (fun k' v' w' hm hs => hIH k' v' w' (List.mem_cons_of_mem _ hm) hs)
        have hcv : json_dumps_canonical v = json_dumps_canonical w :=
          hIH k v w (List.mem_cons_self _ _) hhead
        rw [heq, canonKvs_append]
        show List.Perm ((k, json_dumps_canonical v) :: canonKvs rest)
          (canonKvs ys₁ ++ (k, json_dumps_canonical w) :: canonKvs ys₂)
        rw [hcv]
        have step₁ : List.Perm ((k, json_dumps_canonical w) :: canonKvs rest)
            ((k, json_dumps_canonical w) :: (canonKvs ys₁ ++ canonKvs ys₂)) :=
          (hperm.trans (by rw [canonKvs_append])).cons _
        exact step₁.trans List.perm_middle.symm

theorem canonList_eq :
    ∀ (xs ys : List Json), structEqList xs ys = true →
    (∀ v w, v ∈ xs → structEq v w = true →
      json_dumps_canonical v = json_dumps_canonical w) →
    canonList xs = canonList ys := by
  intro xs
  induction xs with
  | nil =>
    intro ys h _
    cases ys with
    | nil => rfl
    | cons _ _ => simp [structEqList] at h
  | cons x rest ih =>
    intro ys h hIH
    cases ys with
    | nil => simp [structEqList] at h
    | cons y ys' =>
      rw [structEqList, Bool.and_eq_true] at h
      rw [canonList, canonList, hIH x y (List.mem_cons_self _ _) h.1,
        ih ys' h.2 fun v w hv hs => hIH v w (List.mem_cons_of_mem _ hv) hs]

theorem sizeOf_lt_arr {v : Json} {xs : List Json} (hv : v ∈ xs) :
    sizeOf v < sizeOf (Json.arr xs) := by
  have h1 := List.sizeOf_lt_of_mem hv
  simp only [Json.arr.sizeOf_spec]
  omega

theorem sizeOf_lt_obj {k : String} {v : Json} {xs : List (String × Json)}
    (hm : (k, v) ∈ xs) : sizeOf v < sizeOf (Json.obj xs) := by
  have h1 := List.sizeOf_lt_of_mem hm
  have h2 : sizeOf (k, v) = 1 + sizeOf k + sizeOf v := rfl
  simp only [Json.obj.sizeOf_spec]
  omega

theorem json_dumps_canonical_congr_aux :
    ∀ (n : Nat) (a b : Json), sizeOf a ≤ n → structEq a b = true →
      json_dumps_canonical a = json_dumps_canonical b := by
  intro n
  induction n with
  | zero =>
    intro a b hle _
    exfalso
    cases a <;> simp at hle
  | succ n ih =>
    intro a b hle h
    cases a <;> cases b <;>
      simp only [structEq, Bool.and_eq_true, beq_iff_eq] at h <;>
      try exact Bool.noConfusion h
    · rfl
    · rw [h]
    · rw [h]
    · rw [h]
    · rename_i xs ys
      simp only [Json.arr.sizeOf_spec] at hle
      simp only [json_dumps_canonical]
      rw [canonList_eq xs ys h fun v w hv hs =>
        ih v w (by have := sizeOf_lt_arr hv; simp at this; omega) hs]
    · rename_i xs ys
      obtain ⟨⟨hlen, hnd⟩, hkv⟩ := h
      simp only [Json.obj.sizeOf_spec] at hle
      simp only [json_dumps_canonical]
      have hperm := canonKvs_perm xs ys hnd hlen hkv
        fun k v w hm hs =>
          ih v w (by have := sizeOf_lt_obj hm; simp at this; omega) hs
      have hnd' : ((canonKvs xs).map Prod.fst).Nodup := by
        rw [canonKvs_fst]; exact keysNodup_nodup hnd
      rw [sortPairs_eq_of_perm hperm hnd']

/-- Canonicalization depends only on the structural value: two structurally
equal ConfigObjects canonicalize to byte-identical output. -/
theorem json_dumps_canonical_congr (a b : Json) (h : structEq a b = true) :
    json_dumps_canonical a = json_dumps_canonical b :=
  json_dumps_canonical_congr_aux (sizeOf a) a b le_rfl h

/-! Measurement binding check
(verify.py lines 133-146; verify_full.py lines 109-116 and 153-159). -/

inductive BindingResult where
  | Match : BindingResult
  | Mismatch : BindingResult
  | UnrecognizedScheme : BindingResult
deriving DecidableEq

/-- The binding check the two scripts perform on the Report's
`mr_config_id`.  The scripts receive the field hex-encoded from dcap-qvl and
test `config_id.startswith('01')`, then slice the hex string at `[2:66]` and
compare it with the canonical-JSON sha256 hex digest; on the decoded bytes
this reads: the first byte is the tag 0x01 and bytes [1:33) are the embedded
ConfigHash.  `sha256` (hashlib, external) is abstracted as the raw digest
function. -/
def checkConfigBinding (sha256 : List Nat → List Nat) (configBinding : List Nat)
    (compose_obj : Json) : BindingResult :=
  if configBinding.head? = some 1 then
    if (configBinding.drop 1).take 32 =
        sha256 (strBytes (json_dumps_canonical compose_obj)) then
      .Match
    else .Mismatch
  else .UnrecognizedScheme

/-! Hardware status gate (verify_full.py lines 90-99). -/

/-- `status not in ['UpToDate', 'SWHardeningNeeded']` is the hard-failure
test of verify_full.py line 96, negated. -/
def statusAcceptable (status : String) : Bool :=
  status == "UpToDate" || status == "SWHardeningNeeded"

/-- The hardware status taxonomy of the Report data model (up-to-date /
needs-hardening / out-of-date / revoked / unknown), with the status strings
dcap-qvl uses for the two accepted members. -/
inductive TcbStatus where
  | upToDate : TcbStatus
  | needsHardening : TcbStatus
  | outOfDate : TcbStatus
  | revoked : TcbStatus
  | unknown : TcbStatus
deriving DecidableEq

def statusString : TcbStatus → String
  | .upToDate => "UpToDate"
  | .needsHardening => "SWHardeningNeeded"
  | .outOfDate => "OutOfDate"
  | .revoked => "Revoked"
  | .unknown => "Unknown"

/-! Full verification pipeline (verify_full.py `main`, lines 87-171),
modelled from the point where `verify_quote` has returned: each ✗ branch is
a `sys.exit(1)` and the constructor names that exit site; `.complete` is the
"Verification Complete" success path. -/

inductive Verdict where
  | complete : Verdict
  | unacceptableStatus : Verdict
  | unknownConfigFormat : Verdict
  | mrtdMismatch : Verdict
  | composeMismatch : Verdict
deriving DecidableEq

/-- The optional OS step fails only when it runs (an `--image-folder` was
given and dstack-mr is installed, `osExpected = some e`) and the expected
MRTD differs from the report's. -/
def osCheckFailed : Option (List Nat) → List Nat → Bool
  | none, _ => false
  | some expected, mr_td => expected != mr_td

/-- verify_full.py `main` after hardware verification: status gate (line
96), config-id tag check (line 111), optional MRTD comparison (line 131),
compose-hash comparison (line 153).  `manifest` is the expected manifest's
bytes (file or API `app_compose` string). -/
def verify_full_main (sha256 : List Nat → List Nat) (status : String)
    (mr_config_id : List Nat) (mr_td : List Nat)
    (osExpected : Option (List Nat)) (manifest : List Nat) : Verdict :=
  if ¬ statusAcceptable status then .unacceptableStatus
  else if mr_config_id.head? ≠ some 1 then .unknownConfigFormat
  else if osCheckFailed osExpected mr_td then .mrtdMismatch
  else if (mr_config_id.drop 1).take 32 ≠ sha256 manifest then .composeMismatch
  else .complete

/-! Transport binding (verify_tls.py `main`, lines 41-81). -/

inductive TlsVerdict where
  | success : TlsVerdict
  | fingerprintMismatch : TlsVerdict
  | noQuote : TlsVerdict
deriving DecidableEq

/-- verify_tls.py `main` steps 3-4: compare the live certificate fingerprint
with the attested one (`sys.exit(1)` on mismatch, line 71), then
`verify_attestation` raises when the attestation carries no quote. -/
def verify_tls_main (cert_fp attested_fp : String) (hasQuote : Bool) :
    TlsVerdict :=
  if cert_fp ≠ attested_fp then .fingerprintMismatch
  else if ¬ hasQuote then .noQuote
  else .success

/-! Delegated key-chain verification
(`verify_signature_chain`, src/05-onchain-authorization/test_local.py lines
35-114 and test_phalacloud.py lines 74-147; both bodies are identical on
the chain inputs — test_local additionally fetches `app_id` itself). -/

/-- ASCII lowercasing, Python `str.lower()` on the hex address strings the
scripts compare. -/
def asciiLower (s : String) : String :=
  String.mk (s.data.map fun c =>
    if 65 ≤ c.toNat ∧ c.toNat ≤ 90 then Char.ofNat (c.toNat + 32) else c)

/-- Lowercase hex rendering of a byte string, Python `bytes.hex()`. -/
def bytesToHex (bs : List Nat) : String :=
  String.mk ((bs.map fun b => [hexDigit (b / 16 % 16), hexDigit (b % 16)]).flatten)

/-- The secp256k1 operations delegated to `eth_utils` / `eth_keys` /
`eth_account` (external libraries), abstracted: keccak digest, public-key
recovery from (message hash, signature), SEC1 compression, checksum-address
derivation, `Account._recover_hash` address recovery, and decompression. -/
structure Crypto where
  keccak : List Nat → List Nat
  recover_public_key_from_msg_hash : List Nat → List Nat → List Nat
  to_compressed_bytes : List Nat → List Nat
  to_checksum_address : List Nat → String
  recover_hash_address : List Nat → List Nat → String
  from_compressed_bytes : List Nat → List Nat

/-- The chain fields the oracle returns (`signatureChain`, `messageHash`,
`signature`), already hex-decoded to bytes by the scripts. -/
structure SignatureChain where
  derivedPubkey : List Nat
  appSignature : List Nat
  kmsSignature : List Nat
  messageHash : List Nat
  messageSignature : List Nat

/-- `eth_keys.Signature(b)` accepts exactly 65 bytes r‖s‖v with recovery id
v ∈ {0, 1}; anything else raises `BadSignature`. -/
def eth_keys_signature_ok (sig : List Nat) : Bool :=
  sig.length == 65 && (sig.getD 64 0 == 0 || sig.getD 64 0 == 1)

/-- `eth_account.Account._recover_hash` parses a 65-byte signature and
accepts v ∈ {0, 1, 27, 28}; anything else raises. -/
def account_signature_ok (sig : List Nat) : Bool :=
  sig.length == 65 && (sig.getD 64 0 == 0 || sig.getD 64 0 == 1 ||
    sig.getD 64 0 == 27 || sig.getD 64 0 == 28)

/-- `eth_keys.PublicKey.from_compressed_bytes` accepts exactly 33 bytes
starting with 0x02 or 0x03; anything else raises. -/
def compressed_pubkey_ok (pk : List Nat) : Bool :=
  pk.length == 33 && (pk.headD 0 == 2 || pk.headD 0 == 3)

/-- Step 1 recovery: the app public key recovered from `appSignature` over
`keccak("ethereum:" + derived_pubkey.hex())` (test_local.py lines 63-70). -/
def recovered_app_pubkey (c : Crypto) (chain : SignatureChain) : List Nat :=
  c.recover_public_key_from_msg_hash
    (c.keccak (strBytes ("ethereum:" ++ bytesToHex chain.derivedPubkey)))
    chain.appSignature

/-- Step 2 recovery: the address recovered from `kmsSignature` over
`keccak(b"dstack-kms-issued:" + app_id + app_pubkey_compressed)`
(test_local.py lines 76-81). -/
def recovered_kms_signer (c : Crypto) (chain : SignatureChain)
    (app_id : List Nat) : String :=
  c.recover_hash_address
    (c.keccak (strBytes "dstack-kms-issued:" ++ app_id ++
      c.to_compressed_bytes (recovered_app_pubkey c chain)))
    chain.kmsSignature

/-- Step 3 recovery: the address recovered from the EIP-191 personal-message
wrapping of `messageHash` (test_local.py lines 93-98). -/
def recovered_message_signer (c : Crypto) (chain : SignatureChain) : String :=
  c.recover_hash_address
    (c.keccak (strBytes "\x19Ethereum Signed Message:\n32" ++ chain.messageHash))
    chain.messageSignature

/-- The expected step-3 signer: the checksum address of the decompressed
derived public key (test_local.py lines 101-102). -/
def expected_derived_signer (c : Crypto) (chain : SignatureChain) : String :=
  c.to_checksum_address (c.from_compressed_bytes chain.derivedPubkey)

/-- Distinct outcomes of `verify_signature_chain`: the `.verified` return
`True`, and the two `return False` sites whose printed reasons are "KMS
signature FAILED" and "Message signature FAILED". -/
inductive ChainResult where
  | verified : ChainResult
  | kmsMismatch : ChainResult
  | messageMismatch : ChainResult
deriving DecidableEq

/-- `verify_signature_chain(data, app_id, expected_kms_root)`.  The value
`none` models an exception from the crypto library escaping the function
(the scripts install no handler around the recovery calls); `some r` is a
normal return, `r` naming the return site. -/
def verify_signature_chain (c : Crypto) (chain : SignatureChain)
    (app_id : List Nat) (expected_kms_root : String) : Option ChainResult :=
  if ¬ eth_keys_signature_ok chain.appSignature then none
  else if ¬ account_signature_ok chain.kmsSignature then none
  else if asciiLower (recovered_kms_signer c chain app_id) ≠
      asciiLower expected_kms_root then some .kmsMismatch
  else if ¬ account_signature_ok chain.messageSignature then none
  else if ¬ compressed_pubkey_ok chain.derivedPubkey then none
  else if asciiLower (recovered_message_signer c chain) ≠
      asciiLower (expected_derived_signer c chain) then some .messageMismatch
  else some .verified

/-! Sample inputs shared by the concrete instantiations below. -/

def zeroHash : List Nat := List.replicate 32 0

def constHashFn : List Nat → List Nat := fun _ => zeroHash

def composeA : Json :=
  .obj [("name", .str "oracle"), ("kms_enabled", .bool true),
    ("allowed_envs", .arr [.str "API_KEY", .num 3]),
    ("nested", .obj [("b", .num 1), ("a", .null)])]

def composeB : Json :=
  .obj [("nested", .obj [("a", .null), ("b", .num 1)]),
    ("allowed_envs", .arr [.str "API_KEY", .num 3]),
    ("kms_enabled", .bool true), ("name", .str "oracle")]

/-- C1: for every ConfigObject and every binding field of at least 33 bytes
whose first byte is the tag 0x01, the binding check returns `Match` iff the
embedded 32-byte hash equals the SHA-256 digest of the canonicalized
ConfigObject, and returns `Mismatch` otherwise. -/
theorem C1_binding_roundtrip (sha256 : List Nat → List Nat)
    (binding : List Nat) (cfg : Json)
    (hlen : 33 ≤ binding.length) (htag : binding.head? = some 1) :
    (checkConfigBinding sha256 binding cfg = .Match ↔
      (binding.drop 1).take 32 =
        sha256 (strBytes (json_dumps_canonical cfg))) ∧
    (checkConfigBinding sha256 binding cfg ≠ .Match →
      checkConfigBinding sha256 binding cfg = .Mismatch) := by
  by_cases hc : (binding.drop 1).take 32 =
      sha256 (strBytes (json_dumps_canonical cfg)) <;>
    simp [checkConfigBinding, htag, hc]

theorem C1_binding_roundtrip_witness :
    33 ≤ (1 :: zeroHash : List Nat).length ∧
    (1 :: zeroHash : List Nat).head? = some 1 ∧
    ((checkConfigBinding constHashFn (1 :: zeroHash) (Json.obj []) = .Match ↔
      ((1 :: zeroHash : List Nat).drop 1).take 32 =
        constHashFn (strBytes (json_dumps_canonical (Json.obj [])))) ∧
    (checkConfigBinding constHashFn (1 :: zeroHash) (Json.obj []) ≠ .Match →
      checkConfigBinding constHashFn (1 :: zeroHash) (Json.obj []) =
        .Mismatch)) :=
  ⟨by decide, by decide,
    C1_binding_roundtrip constHashFn (1 :: zeroHash) (Json.obj [])
      (by decide) (by decide)⟩

/-- C5: a Report whose configBinding first byte is not the recognized tag
0x01 yields `UnrecognizedScheme` for every hash function — the hashes are
never compared and the outcome is neither `Match` nor `Mismatch`. -/
theorem C5_unrecognized_scheme (binding : List Nat) (cfg : Json)
    (htag : binding.head? ≠ some 1) :
    ∀ sha256 : List Nat → List Nat,
      checkConfigBinding sha256 binding cfg = .UnrecognizedScheme := by
  intro sha256
  simp [checkConfigBinding, htag]

theorem C5_unrecognized_scheme_witness :
    ([2] : List Nat).head? ≠ some 1 ∧
    checkConfigBinding constHashFn [2] Json.null = .UnrecognizedScheme :=
  ⟨by decide, C5_unrecognized_scheme [2] Json.null (by decide) constHashFn⟩

/-- C3: structurally equal ConfigObjects (same keys and values at every
nesting level, independent of mapping insertion order) canonicalize to
byte-identical output and therefore have the same ConfigHash. -/
theorem C3_canonicalization_order_independent (a b : Json)
    (h : structEq a b = true) :
    json_dumps_canonical a = json_dumps_canonical b ∧
    ∀ sha256hex : List Nat → String,
      compute_compose_hash sha256hex a = compute_compose_hash sha256hex b := by
  have hc := json_dumps_canonical_congr a b h
  refine ⟨hc, fun sha256hex => ?_⟩
  unfold compute_compose_hash
  rw [hc]

theorem C3_canonicalization_order_independent_witness :
    structEq composeA composeB = true ∧
    (json_dumps_canonical composeA = json_dumps_canonical composeB ∧
    ∀ sha256hex : List Nat → String,
      compute_compose_hash sha256hex composeA =
        compute_compose_hash sha256hex composeB) :=
  ⟨by decide, C3_canonicalization_order_independent composeA composeB (by decide)⟩

/-- The status gate of verify_full.py decides `unacceptableStatus` exactly
on statuses outside the accepted pair, whatever the other inputs. -/
theorem verify_full_main_unacc_iff (sha256 : List Nat → List Nat)
    (st : String) (cid td : List Nat) (os : Option (List Nat))
    (manifest : List Nat) :
    verify_full_main sha256 st cid td os manifest = .unacceptableStatus ↔
      statusAcceptable st = false := by
  unfold verify_full_main
  cases hsa : statusAcceptable st
  · rw [if_pos (by simp [hsa])]
    simp
  · rw [if_neg (by simp [hsa])]
    constructor
    · intro hEq
      exfalso
      split at hEq
      · exact Verdict.noConfusion hEq
      · split at hEq
        · exact Verdict.noConfusion hEq
        · split at hEq
          · exact Verdict.noConfusion hEq
          · exact Verdict.noConfusion hEq
    · intro hcontra
      exact absurd hcontra (by simp)

/-- C4: over the whole hardware status taxonomy, verify_full reports the
unacceptable-status hard failure iff the status lies outside the accepted
set (up-to-date / needs-hardening); an unaccepted status is never ignored. -/
theorem C4_status_gating (s : TcbStatus) (sha256 : List Nat → List Nat)
    (cid td : List Nat) (os : Option (List Nat)) (manifest : List Nat) :
    verify_full_main sha256 (statusString s) cid td os manifest =
        .unacceptableStatus ↔
      (s ≠ .upToDate ∧ s ≠ .needsHardening) := by
  rw [verify_full_main_unacc_iff]
  cases s <;> decide

/-- C6: whenever the live TLS certificate fingerprint differs from the
attested fingerprint, verify_tls hard-fails, regardless of the attestation
content. -/
theorem C6_transport_binding_hard_failure (cert_fp attested_fp : String)
    (hasQuote : Bool) (hne : cert_fp ≠ attested_fp) :
    verify_tls_main cert_fp attested_fp hasQuote = .fingerprintMismatch := by
  simp [verify_tls_main, hne]

theorem C6_transport_binding_hard_failure_witness :
    ("aa" : String) ≠ "bb" ∧
    verify_tls_main "aa" "bb" true = .fingerprintMismatch :=
  ⟨by decide, C6_transport_binding_hard_failure "aa" "bb" true (by decide)⟩

def sampleSig : List Nat := List.replicate 65 0

def sampleCompressed : List Nat := 2 :: List.replicate 32 0

def constCrypto : Crypto :=
  { keccak := fun _ => []
    recover_public_key_from_msg_hash := fun _ _ => []
    to_compressed_bytes := fun _ => []
    to_checksum_address := fun _ => "A"
    recover_hash_address := fun _ _ => "a"
    from_compressed_bytes := fun _ => [] }

def sampleChain : SignatureChain :=
  { derivedPubkey := sampleCompressed
    appSignature := sampleSig
    kmsSignature := sampleSig
    messageHash := []
    messageSignature := sampleSig }

def badSigChain : SignatureChain :=
  { sampleChain with appSignature := [1, 2, 3] }

/-- C2: on well-formed signatures, the chain verifies exactly when the
recovered KMS signer matches the expected root and the recovered message
signer matches the derived identity (the app identity being, by
construction, the key recovered in the app-signature step); and a mismatch
is attributed to exactly the failing hop: the KMS-hop mismatch returns the
KMS failure outcome, and a message-hop mismatch after a passing KMS hop
returns the message failure outcome. -/
theorem C2_chain_soundness (c : Crypto) (chain : SignatureChain)
    (app_id : List Nat) (root : String)
    (h1 : eth_keys_signature_ok chain.appSignature = true)
    (h2 : account_signature_ok chain.kmsSignature = true)
    (h3 : account_signature_ok chain.messageSignature = true)
    (h4 : compressed_pubkey_ok chain.derivedPubkey = true) :
    (verify_signature_chain c chain app_id root = some .verified ↔
      (asciiLower (recovered_kms_signer c chain app_id) = asciiLower root ∧
        asciiLower (recovered_message_signer c chain) =
          asciiLower (expected_derived_signer c chain))) ∧
    (asciiLower (recovered_kms_signer c chain app_id) ≠ asciiLower root →
      verify_signature_chain c chain app_id root = some .kmsMismatch) ∧
    (asciiLower (recovered_kms_signer c chain app_id) = asciiLower root →
      asciiLower (recovered_message_signer c chain) ≠
        asciiLower (expected_derived_signer c chain) →
      verify_signature_chain c chain app_id root = some .messageMismatch) := by
  unfold verify_signature_chain
  rw [if_neg (by simp [h1]), if_neg (by simp [h2])]
  by_cases hk : asciiLower (recovered_kms_signer c chain app_id) =
      asciiLower root
  · rw [if_neg (fun hne => hne hk), if_neg (by simp [h3]),
      if_neg (by simp [h4])]
    by_cases hm : asciiLower (recovered_message_signer c chain) =
        asciiLower (expected_derived_signer c chain)
    · rw [if_neg (fun hne => hne hm)]
      exact ⟨by simp [hk, hm], fun hkn => absurd hk hkn,
        fun _ hmn => absurd hm hmn⟩
    · rw [if_pos hm]
      exact ⟨by simp [hm], fun hkn => absurd hk hkn, fun _ _ => rfl⟩
  · rw [if_pos hk]
    exact ⟨by simp [hk], fun _ => rfl, fun hkeq => absurd hkeq hk⟩

theorem C2_chain_soundness_witness :
    eth_keys_signature_ok sampleChain.appSignature = true ∧
    account_signature_ok sampleChain.kmsSignature = true ∧
    account_signature_ok sampleChain.messageSignature = true ∧
    compressed_pubkey_ok sampleChain.derivedPubkey = true ∧
    ((verify_signature_chain constCrypto sampleChain [] "A" = some .verified ↔
      (asciiLower (recovered_kms_signer constCrypto sampleChain []) =
          asciiLower "A" ∧
        asciiLower (recovered_message_signer constCrypto sampleChain) =
          asciiLower (expected_derived_signer constCrypto sampleChain))) ∧
    (asciiLower (recovered_kms_signer constCrypto sampleChain []) ≠
        asciiLower "A" →
      verify_signature_chain constCrypto sampleChain [] "A" =
        some .kmsMismatch) ∧
    (asciiLower (recovered_kms_signer constCrypto sampleChain []) =
        asciiLower "A" →
      asciiLower (recovered_message_signer constCrypto sampleChain) ≠
        asciiLower (expected_derived_signer constCrypto sampleChain) →
      verify_signature_chain constCrypto sampleChain [] "A" =
        some .messageMismatch)) :=
  ⟨by decide, by decide, by decide, by decide,
    C2_chain_soundness constCrypto sampleChain [] "A"
      (by decide) (by decide) (by decide) (by decide)⟩

/-- C7: no success outcome coexists with a failing mandatory check:
verify_full completes only when the status is accepted, the binding tag is
recognized, the optional OS check did not fail, and the embedded hash equals
the manifest hash; and the chain verifier returns the verified outcome only
when both signer-identity comparisons succeed. -/
theorem C7_no_trust_on_failure :
    (∀ (sha256 : List Nat → List Nat) (st : String) (cid td : List Nat)
        (os : Option (List Nat)) (manifest : List Nat),
      verify_full_main sha256 st cid td os manifest = .complete →
        statusAcceptable st = true ∧ cid.head? = some 1 ∧
        osCheckFailed os td = false ∧
        (cid.drop 1).take 32 = sha256 manifest) ∧
    (∀ (c : Crypto) (chain : SignatureChain) (app_id : List Nat)
        (root : String),
      verify_signature_chain c chain app_id root = some .verified →
        asciiLower (recovered_kms_signer c chain app_id) = asciiLower root ∧
        asciiLower (recovered_message_signer c chain) =
          asciiLower (expected_derived_signer c chain)) := by
  constructor
  · intro sha256 st cid td os manifest h
    unfold verify_full_main at h
    split at h
    · exact Verdict.noConfusion h
    · rename_i hst
      split at h
      · exact Verdict.noConfusion h
      · rename_i htag
        split at h
        · exact Verdict.noConfusion h
        · rename_i hos
          split at h
          · exact Verdict.noConfusion h
          · rename_i hcmp
            refine ⟨by simpa using hst, by simpa using htag,
              by simpa using hos, by simpa using hcmp⟩
  · intro c chain app_id root h
    unfold verify_signature_chain at h
    split at h
    · exact Option.noConfusion h
    · split at h
      · exact Option.noConfusion h
      · split at h
        · simp at h
        · rename_i hk
          split at h
          · exact Option.noConfusion h
          · split at h
            · exact Option.noConfusion h
            · split at h
              · simp at h
              · rename_i hm
                exact ⟨by simpa using hk, by simpa using hm⟩

theorem C7_no_trust_on_failure_witness :
    (statusAcceptable "UpToDate" = true ∧
      (1 :: zeroHash : List Nat).head? = some 1 ∧
      osCheckFailed none [] = false ∧
      ((1 :: zeroHash : List Nat).drop 1).take 32 = constHashFn []) ∧
    (asciiLower (recovered_kms_signer constCrypto sampleChain []) =
        asciiLower "A" ∧
      asciiLower (recovered_message_signer constCrypto sampleChain) =
        asciiLower (expected_derived_signer constCrypto sampleChain)) :=
  ⟨C7_no_trust_on_failure.1 constHashFn "UpToDate" (1 :: zeroHash) [] none []
      (by decide),
    C7_no_trust_on_failure.2 constCrypto sampleChain [] "A" (by decide)⟩

/-- C8 counterexample: an input on which both the status gate and the
compose-hash comparison fail, yet the verdict reports only the status
failure — the binding mismatch is silently dropped, so the terminal verdict
does not carry the reasons of every failing check. -/
theorem C8_counterexample :
    statusAcceptable "Revoked" = false ∧
    ((1 :: List.replicate 32 1 : List Nat).drop 1).take 32 ≠ constHashFn [] ∧
    verify_full_main constHashFn "UpToDate" (1 :: List.replicate 32 1) []
      none [] = .composeMismatch ∧
    verify_full_main constHashFn "Revoked" (1 :: List.replicate 32 1) []
      none [] = .unacceptableStatus := by
  refine ⟨by decide, by decide, by decide, by decide⟩

/-- C8 amended: aggregation short-circuits at the first hard failure,
whichever gate it is — the first failing check (status, binding tag, MRTD,
or compose hash) alone determines the verdict, whatever the later checks
would report. -/
theorem C8_amended_short_circuit (sha256 : List Nat → List Nat) (st : String)
    (cid td : List Nat) (os : Option (List Nat)) (manifest : List Nat) :
    (statusAcceptable st = false →
      verify_full_main sha256 st cid td os manifest = .unacceptableStatus) ∧
    (statusAcceptable st = true → cid.head? ≠ some 1 →
      verify_full_main sha256 st cid td os manifest = .unknownConfigFormat) ∧
    (statusAcceptable st = true → cid.head? = some 1 →
      osCheckFailed os td = true →
      verify_full_main sha256 st cid td os manifest = .mrtdMismatch) ∧
    (statusAcceptable st = true → cid.head? = some 1 →
      osCheckFailed os td = false →
      (cid.drop 1).take 32 ≠ sha256 manifest →
      verify_full_main sha256 st cid td os manifest = .composeMismatch) := by
  refine ⟨fun h1 => ?_, fun h1 h2 => ?_, fun h1 h2 h3 => ?_,
    fun h1 h2 h3 h4 => ?_⟩
  · unfold verify_full_main
    rw [if_pos (by simp [h1])]
  · unfold verify_full_main
    rw [if_neg (by simp [h1]), if_pos h2]
  · unfold verify_full_main
    rw [if_neg (by simp [h1]), if_neg (fun hne => hne h2),
      if_pos (by simp [h3])]
  · unfold verify_full_main
    rw [if_neg (by simp [h1]), if_neg (fun hne => hne h2),
      if_neg (by simp [h3]), if_pos h4]

theorem C8_amended_short_circuit_witness :
    (statusAcceptable "Revoked" = false ∧
      verify_full_main constHashFn "Revoked" (1 :: List.replicate 32 1) []
        none [] = .unacceptableStatus) ∧
    (statusAcceptable "UpToDate" = true ∧ ([2] : List Nat).head? ≠ some 1 ∧
      verify_full_main constHashFn "UpToDate" [2] [] none [] =
        .unknownConfigFormat) ∧
    (osCheckFailed (some [5]) [] = true ∧
      verify_full_main constHashFn "UpToDate" (1 :: List.replicate 32 1) []
        (some [5]) [] = .mrtdMismatch) ∧
    (((1 :: List.replicate 32 1 : List Nat).drop 1).take 32 ≠ constHashFn [] ∧
      verify_full_main constHashFn "UpToDate" (1 :: List.replicate 32 1) []
        none [] = .composeMismatch) :=
  ⟨⟨by decide,
    (C8_amended_short_circuit constHashFn "Revoked"
      (1 :: List.replicate 32 1) [] none []).1 (by decide)⟩,
   ⟨by decide, by decide,
    (C8_amended_short_circuit constHashFn "UpToDate" [2] [] none []).2.1
      (by decide) (by decide)⟩,
   ⟨by decide,
    (C8_amended_short_circuit constHashFn "UpToDate"
      (1 :: List.replicate 32 1) [] (some [5]) []).2.2.1
      (by decide) (by decide) (by decide)⟩,
   ⟨by decide,
    (C8_amended_short_circuit constHashFn "UpToDate"
      (1 :: List.replicate 32 1) [] none []).2.2.2
      (by decide) (by decide) (by decide) (by decide)⟩⟩

/-- C9 counterexample: a malformed (wrong-length) app signature makes the
chain verifier propagate the library exception (modelled `none`) instead of
returning a Broken outcome. -/
theorem C9_counterexample :
    eth_keys_signature_ok ([1, 2, 3] : List Nat) = false ∧
    verify_signature_chain constCrypto badSigChain [] "A" = none := by
  refine ⟨by decide, by decide⟩

/-- C9 amended: a malformed signature (wrong length or invalid recovery id,
rejected by the library's validation) never yields a Broken-style result: a
malformed app or KMS signature always makes the exception escape uncaught
(modelled `none`), and a malformed message signature does too whenever
execution reaches the message-recovery step — the only other possibility is
that the verifier already returned the earlier KMS failure before parsing
the message signature. -/
theorem C9_amended_crash_on_malformed (c : Crypto) (chain : SignatureChain)
    (app_id : List Nat) (root : String) :
    (eth_keys_signature_ok chain.appSignature = false →
      verify_signature_chain c chain app_id root = none) ∧
    (account_signature_ok chain.kmsSignature = false →
      verify_signature_chain c chain app_id root = none) ∧
    (account_signature_ok chain.messageSignature = false →
      verify_signature_chain c chain app_id root = none ∨
      verify_signature_chain c chain app_id root = some .kmsMismatch) := by
  refine ⟨fun h1 => ?_, fun h2 => ?_, fun h3 => ?_⟩
  · unfold verify_signature_chain
    rw [if_pos (by simp [h1])]
  · unfold verify_signature_chain
    by_cases h1 : eth_keys_signature_ok chain.appSignature = true
    · rw [if_neg (by simp [h1]), if_pos (by simp [h2])]
    · rw [if_pos h1]
  · unfold verify_signature_chain
    by_cases h1 : eth_keys_signature_ok chain.appSignature = true
    · by_cases h2 : account_signature_ok chain.kmsSignature = true
      · by_cases hk : asciiLower (recovered_kms_signer c chain app_id) =
            asciiLower root
        · left
          rw [if_neg (by simp [h1]), if_neg (by simp [h2]),
            if_neg (fun hne => hne hk), if_pos (by simp [h3])]
        · right
          rw [if_neg (by simp [h1]), if_neg (by simp [h2]), if_pos hk]
      · left
        rw [if_neg (by simp [h1]), if_pos h2]
    · left
      rw [if_pos h1]

def badKmsSigChain : SignatureChain :=
  { sampleChain with kmsSignature := [1, 2, 3] }

def badMsgSigChain : SignatureChain :=
  { sampleChain with messageSignature := [1, 2, 3] }

theorem C9_amended_crash_on_malformed_witness :
    (eth_keys_signature_ok badSigChain.appSignature = false ∧
      verify_signature_chain constCrypto badSigChain [] "A" = none) ∧
    (account_signature_ok badKmsSigChain.kmsSignature = false ∧
      verify_signature_chain constCrypto badKmsSigChain [] "A" = none) ∧
    (account_signature_ok badMsgSigChain.messageSignature = false ∧
      (verify_signature_chain constCrypto badMsgSigChain [] "A" = none ∨
        verify_signature_chain constCrypto badMsgSigChain [] "A" =
          some .kmsMismatch)) :=
  ⟨⟨by decide,
    (C9_amended_crash_on_malformed constCrypto badSigChain [] "A").1
      (by decide)⟩,
   ⟨by decide,
    (C9_amended_crash_on_malformed constCrypto badKmsSigChain [] "A").2.1
      (by decide)⟩,
   ⟨by decide,
    (C9_amended_crash_on_malformed constCrypto badMsgSigChain [] "A").2.2
      (by decide)⟩⟩

/-- C10: the chain verification outcome is unchanged by altering only the
letter-case of the expected root address — both address comparisons are on
lowercased strings. -/
theorem C10_case_insensitive_root (c : Crypto) (chain : SignatureChain)
    (app_id : List Nat) (root₁ root₂ : String)
    (h : asciiLower root₁ = asciiLower root₂) :
    verify_signature_chain c chain app_id root₁ =
      verify_signature_chain c chain app_id root₂ := by
  unfold verify_signature_chain
  rw [h]

theorem C10_case_insensitive_root_witness :
    asciiLower "0xAbCd" = asciiLower "0xaBcD" ∧
    verify_signature_chain constCrypto sampleChain [] "0xAbCd" =
      verify_signature_chain constCrypto sampleChain [] "0xaBcD" :=
  ⟨by decide,
    C10_case_insensitive_root constCrypto sampleChain [] "0xAbCd" "0xaBcD"
      (by decide)⟩
